import Mathlib

/-!
# Verification of the META price-tracker alert loop

A shallow embedding of `src/meta_price_tracker.py`.  The program is a
single-threaded polling loop: each tick fetches a price, appends it to a
CSV log, and — when the price is below the alert threshold and the alert
cooldown has elapsed — fetches news, requests an AI analysis and sends an
e-mail, recording the send time.

External collaborators (market data, NewsAPI, the Anthropic API, SMTP,
the wall clock) are modelled as per-tick oracle inputs (`TickInput`).
Prices and times are rationals.  A Python exception that escapes a
function is modelled as `Except.error`; exception paths that the source
catches are folded into the corresponding fallback return value.
-/

/-! ## Configuration constants (module-level CONFIG block of the source) -/

def TICKER : String := "META"

def ALERT_BELOW : ℚ := 800

def CHECK_INTERVAL_SECONDS : ℚ := 60

def LOG_FILE : String := "meta_price_log.csv"

def ALERT_COOLDOWN_SECONDS : ℕ := 3600

/-! ## News fetching (`get_news`)

The raw NewsAPI response is an oracle input.  Each raw article is a JSON
object whose fields may be absent (the source reads them with `.get` and
a default).  `get_news` builds, for each raw article, a dict with exactly
the keys `title`, `description`, `source`, `publishedAt`; any exception
and any non-"ok" API status yield the empty list. -/

structure RawArticle where
  title? : Option String
  description? : Option String
  sourceName? : Option String
  publishedAt? : Option String
  url? : Option String
deriving DecidableEq

inductive NewsResponse where
  /-- the HTTP request or JSON decoding raised an exception -/
  | raises
  /-- a decoded JSON body with a status, optional message and article list -/
  | response (status : String) (message : Option String) (articles : List RawArticle)
deriving DecidableEq

/-- The article dict built by `get_news` (keys `title`, `description`,
`source`, `publishedAt`, each defaulting to the empty string). -/
structure Article where
  title : String
  description : String
  source : String
  publishedAt : String
deriving DecidableEq

/-- The Python dict the source actually constructs for one article:
an association list with exactly these four keys, in insertion order. -/
def Article.toDict (a : Article) : List (String × String) :=
  [("title", a.title), ("description", a.description),
   ("source", a.source), ("publishedAt", a.publishedAt)]

def mkArticle (a : RawArticle) : Article :=
  { title := a.title?.getD ""
    description := a.description?.getD ""
    source := a.sourceName?.getD ""
    publishedAt := a.publishedAt?.getD "" }

def get_news (_query : String) (resp : NewsResponse) : List Article :=
  match resp with
  | .raises => []
  | .response status _ articles =>
      if status ≠ "ok" then []
      else articles.map mkArticle

/-! ## Numeric formatting

`fmt2 q` models Python's `:.2f` format specifier on a rational value:
round to two decimal places (ties to even) and print with exactly two
fractional digits. -/

def round2 (q : ℚ) : ℤ :=
  let n : ℤ := q.num * 100
  let d : ℤ := (q.den : ℤ)
  let fl : ℤ := Int.fdiv n d
  let r : ℤ := n - fl * d
  if 2 * r < d then fl
  else if d < 2 * r then fl + 1
  else if fl % 2 = 0 then fl else fl + 1

def fmt2 (q : ℚ) : String :=
  let c := round2 q
  let sign := if c < 0 then "-" else ""
  let n := c.natAbs
  sign ++ toString (n / 100) ++ "." ++ (if n % 100 < 10 then "0" else "") ++ toString (n % 100)

/-! ## AI analysis (`analyze_with_claude`)

The whole function body is inside `try`; any exception (including the
`ZeroDivisionError` the prompt's percentage computation raises when
`target = 0`) is caught and replaced by the fallback string.  The
remote model's reply (or a raised exception) is an oracle input. -/

inductive ClaudeOutcome where
  | raises
  | replies (text : String)
deriving DecidableEq

def analyze_with_claude (_price target : ℚ) (_articles : List Article)
    (o : ClaudeOutcome) : String :=
  if target = 0 then "AI analysis unavailable at this time."
  else
    match o with
    | .raises => "AI analysis unavailable at this time."
    | .replies t => t

/-! ## E-mail construction and sending (`send_smart_email`)

The subject and body are built *before* the `try` block.  The body's
"Below by" line divides by `target`, so `target = 0` raises a
`ZeroDivisionError` out of the function; this is the only exception the
`try` does not cover.  The SMTP session outcome is an oracle input; the
`try` turns an authentication error or any other exception into a
`False` return, and a completed send into `True`. -/

inductive PyErr where
  | zeroDivision
deriving DecidableEq

inductive SmtpOutcome where
  /-- the message was handed to the SMTP server -/
  | sent
  /-- `smtplib.SMTPAuthenticationError` was raised -/
  | authError
  /-- some other exception was raised during the SMTP session -/
  | otherError
deriving DecidableEq

/-- The percentage `((target - price) / target * 100)` appearing in the
body (and in the analysis prompt); raises `ZeroDivisionError` when
`target = 0`. -/
def pctBelow (price target : ℚ) : Except PyErr ℚ :=
  if target = 0 then .error .zeroDivision
  else .ok ((target - price) / target * 100)

/-- The `for a in articles[:3]` accumulation of headline lines. -/
def newsLines : List Article → String
  | [] => ""
  | a :: rest => "  • [" ++ a.source ++ "] " ++ a.title ++ "\n" ++ newsLines rest

def news_section (articles : List Article) : String :=
  if articles.isEmpty then ""
  else "\nRECENT NEWS:\n" ++ newsLines (articles.take 3)

def emailSubject (price target : ℚ) : String :=
  "🔴 META Alert: $" ++ fmt2 price ++ " dropped below $" ++ fmt2 target
    ++ " — AI Analysis Inside"

def emailBody (price target pct : ℚ) (timestamp analysis : String)
    (articles : List Article) : String :=
  "\nMETA Stock Price Alert\n══════════════════════════════════════\n\n  Current Price : $"
    ++ fmt2 price
    ++ "\n  Your Target   : below $"
    ++ fmt2 target
    ++ "\n  Below by      : $"
    ++ fmt2 (target - price)
    ++ " ("
    ++ fmt2 pct
    ++ "%)\n  Time          : "
    ++ timestamp
    ++ "\n\n──────────────────────────────────────\nAI ANALYSIS\n──────────────────────────────────────\n\n"
    ++ analysis
    ++ "\n"
    ++ news_section articles
    ++ "\n──────────────────────────────────────\nThis is an automated alert from your META Price Tracker Agent.\nNext alert in "
    ++ toString (ALERT_COOLDOWN_SECONDS / 60)
    ++ " minutes if price stays below target.\n"

def send_smart_email (price target : ℚ) (analysis : String) (articles : List Article)
    (timestamp : String) (smtp : SmtpOutcome) : Except PyErr Bool :=
  match pctBelow price target with
  | .error e => .error e
  | .ok pct =>
      let _subject := emailSubject price target
      let _body := emailBody price target pct timestamp analysis articles
      match smtp with
      | .sent => .ok true
      | .authError => .ok false
      | .otherError => .ok false

/-- The boolean `send_smart_email` returns for a given SMTP outcome. -/
def smtpSuccess : SmtpOutcome → Bool
  | .sent => true
  | .authError => false
  | .otherError => false

/-! ## The CSV price log (`log_price`)

The log file is `none` while it does not exist.  Opening in append mode
creates it; the header line is written exactly when the file did not yet
exist, then the data row is appended. -/

inductive LogLine where
  | header
  | row (timestamp ticker : String) (price : ℚ) (below : String)
deriving DecidableEq

def log_price (price : ℚ) (timestamp : String)
    (file : Option (List LogLine)) : Option (List LogLine) :=
  if LOG_FILE.isEmpty then file
  else
    let base : List LogLine :=
      match file with
      | none => [LogLine.header]
      | some ls => ls
    let below := if price < ALERT_BELOW then "YES" else ""
    some (base ++ [LogLine.row timestamp TICKER price below])

/-! ## Price-change formatting (`format_change`)

Called at the top of every valid-price iteration, before the log write
and before the alert guard.  With `prev_price` equal to `0` (reachable
after a tick that observed a 0.00 price) the percentage computation
`(change / prev_price) * 100` raises an uncaught `ZeroDivisionError`,
crashing the loop. -/

def format_change (price : ℚ) (prev_price : Option ℚ) : Except PyErr String :=
  match prev_price with
  | none => .ok ""
  | some prev =>
      if prev = 0 then .error .zeroDivision
      else
        let change := price - prev
        let pct := change / prev * 100
        let arrow := if 0 ≤ change then "▲" else "▼"
        .ok ("  " ++ arrow ++ " $" ++ fmt2 |change| ++ " (" ++ fmt2 |pct| ++ "%)")

/-! ## The main loop (`run`)

One iteration of the `while True` loop is `tick`.  Its oracle inputs are
the price-fetch outcome, the wall-clock reading `time.time()`, the two
`datetime.now()` strings (one taken inside `log_price`, one inside
`send_smart_email`), and the three collaborator outcomes.  `TickEvents`
records which externally visible actions the iteration performed.
An exception escaping the loop body (the `format_change` division, and
nothing else on reachable states) is `Except.error`, carrying the
process state at the moment of the raise (the log file as written so
far). -/

structure TickInput where
  priceResult : Option ℚ
  now : ℚ
  logTimestamp : String
  emailTimestamp : String
  newsResponse : NewsResponse
  claudeOutcome : ClaudeOutcome
  smtpOutcome : SmtpOutcome
deriving DecidableEq

structure LoopState where
  prev_price : Option ℚ
  last_alert_time : Option ℚ
  logFile : Option (List LogLine)
deriving DecidableEq

def initState (file : Option (List LogLine)) : LoopState :=
  { prev_price := none, last_alert_time := none, logFile := file }

structure TickEvents where
  logged : Bool
  newsFetched : Bool
  analysisRequested : Bool
  sendAttempted : Bool
  sendResult : Option Bool
deriving DecidableEq

def noEvents : TickEvents :=
  { logged := false, newsFetched := false, analysisRequested := false,
    sendAttempted := false, sendResult := none }

def idleEvents : TickEvents :=
  { logged := true, newsFetched := false, analysisRequested := false,
    sendAttempted := false, sendResult := none }

def notifyEvents (success : Bool) : TickEvents :=
  { logged := true, newsFetched := true, analysisRequested := true,
    sendAttempted := true, sendResult := some success }

/-- The `cooldown_over` condition of the source:
`last_alert_time is None or (now - last_alert_time) > ALERT_COOLDOWN_SECONDS`. -/
def cooldownOver (last : Option ℚ) (now : ℚ) : Bool :=
  match last with
  | none => true
  | some t => decide (now - t > (ALERT_COOLDOWN_SECONDS : ℚ))

def tick (s : LoopState) (inp : TickInput) :
    Except (PyErr × LoopState) (LoopState × TickEvents) :=
  match inp.priceResult with
  | none => .ok (s, noEvents)
  | some price =>
      match format_change price s.prev_price with
      | .error e => .error (e, s)
      | .ok _change_str =>
          let logFile := log_price price inp.logTimestamp s.logFile
          if price < ALERT_BELOW then
            if cooldownOver s.last_alert_time inp.now then
              let articles := get_news "META Facebook stock" inp.newsResponse
              let analysis := analyze_with_claude price ALERT_BELOW articles inp.claudeOutcome
              match send_smart_email price ALERT_BELOW analysis articles
                  inp.emailTimestamp inp.smtpOutcome with
              | .error e =>
                  .error (e, { prev_price := s.prev_price,
                               last_alert_time := s.last_alert_time, logFile := logFile })
              | .ok success =>
                  .ok ({ prev_price := some price,
                         last_alert_time := if success then some inp.now else s.last_alert_time,
                         logFile := logFile },
                       notifyEvents success)
            else
              .ok ({ prev_price := some price, last_alert_time := s.last_alert_time,
                     logFile := logFile },
                   idleEvents)
          else
            .ok ({ prev_price := some price, last_alert_time := s.last_alert_time,
                   logFile := logFile },
                 idleEvents)

def runTicks (s : LoopState) :
    List TickInput → Except (PyErr × LoopState) (LoopState × List TickEvents)
  | [] => .ok (s, [])
  | inp :: rest =>
      match tick s inp with
      | .error e => .error e
      | .ok (s', ev) =>
          match runTicks s' rest with
          | .error e => .error e
          | .ok (sF, evs) => .ok (sF, ev :: evs)

/-! ## Helper lemmas about one tick -/

theorem ALERT_BELOW_ne_zero : ALERT_BELOW ≠ 0 := by
  norm_num [ALERT_BELOW]

theorem send_smart_email_eq (price target : ℚ) (analysis : String)
    (articles : List Article) (timestamp : String) (smtp : SmtpOutcome)
    (h : target ≠ 0) :
    send_smart_email price target analysis articles timestamp smtp =
      Except.ok (smtpSuccess smtp) := by
  cases smtp <;> simp [send_smart_email, pctBelow, h, smtpSuccess]

theorem cooldownOver_eq_true_iff (last : Option ℚ) (now : ℚ) :
    cooldownOver last now = true ↔
      (last = none ∨ ∃ t, last = some t ∧ now - t > (ALERT_COOLDOWN_SECONDS : ℚ)) := by
  cases last <;> simp [cooldownOver]

theorem tick_fetch_fail (s : LoopState) (inp : TickInput)
    (hp : inp.priceResult = none) :
    tick s inp = Except.ok (s, noEvents) := by
  simp [tick, hp]

theorem format_change_of_ne (price p : ℚ) (hp0 : p ≠ 0) :
    format_change price (some p) =
      Except.ok ("  " ++ (if 0 ≤ price - p then "▲" else "▼") ++ " $" ++
        fmt2 |price - p| ++ " (" ++ fmt2 |(price - p) / p * 100| ++ "%)") := by
  simp [format_change, hp0]

theorem format_change_ok (price : ℚ) (prev : Option ℚ) (h : prev ≠ some 0) :
    ∃ cs, format_change price prev = Except.ok cs := by
  cases prev with
  | none => exact ⟨"", rfl⟩
  | some p =>
      have hp0 : p ≠ 0 := fun hp0 => h (by rw [hp0])
      exact ⟨_, format_change_of_ne price p hp0⟩

theorem tick_format_crash (s : LoopState) (inp : TickInput) (price : ℚ)
    (hp : inp.priceResult = some price) (hprev : s.prev_price = some 0) :
    tick s inp = Except.error (PyErr.zeroDivision, s) := by
  simp [tick, hp, hprev, format_change]

theorem tick_above (s : LoopState) (inp : TickInput) (price : ℚ)
    (hp : inp.priceResult = some price) (hprev : s.prev_price ≠ some 0)
    (hge : ¬ price < ALERT_BELOW) :
    tick s inp = Except.ok
      ({ prev_price := some price, last_alert_time := s.last_alert_time,
         logFile := log_price price inp.logTimestamp s.logFile }, idleEvents) := by
  obtain ⟨cs, hcs⟩ := format_change_ok price s.prev_price hprev
  simp [tick, hp, hcs, hge]

theorem tick_cooldown_active (s : LoopState) (inp : TickInput) (price : ℚ)
    (hp : inp.priceResult = some price) (hprev : s.prev_price ≠ some 0)
    (hlt : price < ALERT_BELOW)
    (hc : cooldownOver s.last_alert_time inp.now = false) :
    tick s inp = Except.ok
      ({ prev_price := some price, last_alert_time := s.last_alert_time,
         logFile := log_price price inp.logTimestamp s.logFile }, idleEvents) := by
  obtain ⟨cs, hcs⟩ := format_change_ok price s.prev_price hprev
  simp [tick, hp, hcs, hlt, hc]

theorem tick_notify (s : LoopState) (inp : TickInput) (price : ℚ)
    (hp : inp.priceResult = some price) (hprev : s.prev_price ≠ some 0)
    (hlt : price < ALERT_BELOW)
    (hc : cooldownOver s.last_alert_time inp.now = true) :
    tick s inp = Except.ok
      ({ prev_price := some price,
         last_alert_time :=
           if smtpSuccess inp.smtpOutcome then some inp.now else s.last_alert_time,
         logFile := log_price price inp.logTimestamp s.logFile },
       notifyEvents (smtpSuccess inp.smtpOutcome)) := by
  obtain ⟨cs, hcs⟩ := format_change_ok price s.prev_price hprev
  simp [tick, hp, hcs, hlt, hc,
    send_smart_email_eq _ _ _ _ _ _ ALERT_BELOW_ne_zero]

theorem runTicks_cons_ok (s : LoopState) (inp : TickInput) (rest : List TickInput)
    (out : LoopState × List TickEvents)
    (h : runTicks s (inp :: rest) = Except.ok out) :
    ∃ s' ev evs, tick s inp = Except.ok (s', ev) ∧
      runTicks s' rest = Except.ok (out.1, evs) ∧ out.2 = ev :: evs := by
  unfold runTicks at h
  cases htick : tick s inp with
  | error e => simp [htick] at h
  | ok p =>
      obtain ⟨s', ev⟩ := p
      simp only [htick] at h
      cases hrest : runTicks s' rest with
      | error e => simp [hrest] at h
      | ok q =>
          obtain ⟨sF, evs⟩ := q
          simp only [hrest, Except.ok.injEq] at h
          subst h
          exact ⟨s', ev, evs, rfl, hrest, rfl⟩

theorem tick_last_alert_mono (s : LoopState) (inp : TickInput)
    (out : LoopState × TickEvents) (h : tick s inp = Except.ok out)
    (t : ℚ) (hl : s.last_alert_time = some t) :
    ∃ t', out.1.last_alert_time = some t' ∧ t ≤ t' := by
  cases hp : inp.priceResult with
  | none =>
      rw [tick_fetch_fail s inp hp] at h
      simp only [Except.ok.injEq] at h
      subst h
      exact ⟨t, hl, le_refl t⟩
  | some price =>
      by_cases hprev : s.prev_price = some 0
      · rw [tick_format_crash s inp price hp hprev] at h
        simp at h
      · by_cases hlt : price < ALERT_BELOW
        · cases hc : cooldownOver s.last_alert_time inp.now with
          | false =>
              rw [tick_cooldown_active s inp price hp hprev hlt hc] at h
              simp only [Except.ok.injEq] at h
              subst h
              exact ⟨t, hl, le_refl t⟩
          | true =>
              rw [tick_notify s inp price hp hprev hlt hc] at h
              simp only [Except.ok.injEq] at h
              subst h
              cases hsm : smtpSuccess inp.smtpOutcome with
              | false => exact ⟨t, by simp [hsm, hl], le_refl t⟩
              | true =>
                  refine ⟨inp.now, by simp [hsm], ?_⟩
                  rw [hl] at hc
                  simp only [cooldownOver, decide_eq_true_eq] at hc
                  have hpos : (0 : ℚ) ≤ (ALERT_COOLDOWN_SECONDS : ℚ) := by positivity
                  linarith
        · rw [tick_above s inp price hp hprev hlt] at h
          simp only [Except.ok.injEq] at h
          subst h
          exact ⟨t, hl, le_refl t⟩

theorem runTicks_last_alert_mono (inputs : List TickInput) :
    ∀ (s : LoopState) (out : LoopState × List TickEvents),
      runTicks s inputs = Except.ok out →
      ∀ t, s.last_alert_time = some t →
        ∃ t', out.1.last_alert_time = some t' ∧ t ≤ t' := by
  induction inputs with
  | nil =>
      intro s out h t hl
      unfold runTicks at h
      simp only [Except.ok.injEq] at h
      subst h
      exact ⟨t, hl, le_refl t⟩
  | cons inp rest ih =>
      intro s out h t hl
      obtain ⟨s', ev, evs, htick, hrest, -⟩ := runTicks_cons_ok s inp rest out h
      obtain ⟨t', ht', htt'⟩ := tick_last_alert_mono s inp (s', ev) htick t hl
      obtain ⟨t'', ht'', ht''le⟩ := ih s' (out.1, evs) hrest t' ht'
      exact ⟨t'', ht'', le_trans htt' ht''le⟩

/-! ## Helper lemmas about the log -/

theorem LOG_FILE_nonempty : LOG_FILE.isEmpty = false := by decide

theorem log_price_none (p : ℚ) (ts : String) :
    log_price p ts none =
      some [LogLine.header,
            LogLine.row ts TICKER p (if p < ALERT_BELOW then "YES" else "")] := by
  simp [log_price, LOG_FILE_nonempty]

theorem log_price_some (p : ℚ) (ts : String) (ls : List LogLine) :
    log_price p ts (some ls) =
      some (ls ++ [LogLine.row ts TICKER p (if p < ALERT_BELOW then "YES" else "")]) := by
  simp [log_price, LOG_FILE_nonempty]

theorem tick_logFile_eq (s : LoopState) (inp : TickInput)
    (out : LoopState × TickEvents) (h : tick s inp = Except.ok out) :
    out.1.logFile =
      match inp.priceResult with
      | none => s.logFile
      | some p => log_price p inp.logTimestamp s.logFile := by
  cases hp : inp.priceResult with
  | none =>
      rw [tick_fetch_fail s inp hp] at h
      simp only [Except.ok.injEq] at h
      subst h
      simp
  | some p =>
      by_cases hprev : s.prev_price = some 0
      · rw [tick_format_crash s inp p hp hprev] at h
        simp at h
      · by_cases hlt : p < ALERT_BELOW
        · cases hc : cooldownOver s.last_alert_time inp.now with
          | false =>
              rw [tick_cooldown_active s inp p hp hprev hlt hc] at h
              simp only [Except.ok.injEq] at h
              subst h
              simp
          | true =>
              rw [tick_notify s inp p hp hprev hlt hc] at h
              simp only [Except.ok.injEq] at h
              subst h
              simp
        · rw [tick_above s inp p hp hprev hlt] at h
          simp only [Except.ok.injEq] at h
          subst h
          simp

/-- The data row a tick appends to the log (`none` when the price fetch
failed). -/
def rowOf? (i : TickInput) : Option LogLine :=
  i.priceResult.map fun p =>
    LogLine.row i.logTimestamp TICKER p (if p < ALERT_BELOW then "YES" else "")

theorem runTicks_logFile_append (inputs : List TickInput) :
    ∀ (s : LoopState) (ls : List LogLine) (out : LoopState × List TickEvents),
      s.logFile = some ls → runTicks s inputs = Except.ok out →
      out.1.logFile = some (ls ++ inputs.filterMap rowOf?) := by
  induction inputs with
  | nil =>
      intro s ls out hfile h
      unfold runTicks at h
      simp only [Except.ok.injEq] at h
      subst h
      simp [hfile]
  | cons i rest ih =>
      intro s ls out hfile h
      obtain ⟨s', ev, evs, htick, hrest, -⟩ := runTicks_cons_ok s i rest out h
      have hlog := tick_logFile_eq s i (s', ev) htick
      cases hp : i.priceResult with
      | none =>
          simp only [hp] at hlog
          have := ih s' ls (out.1, evs) (by rw [hlog, hfile]) hrest
          simpa [List.filterMap_cons, rowOf?, hp] using this
      | some p =>
          simp only [hp, hfile, log_price_some] at hlog
          have := ih s' _ (out.1, evs) hlog hrest
          simpa [List.filterMap_cons, rowOf?, hp] using this

/-! ## Substring containment for the e-mail payload -/

/-- `strContains s pat`: `pat` occurs contiguously inside `s`. -/
def strContains (s pat : String) : Prop :=
  pat.data <:+: s.data

theorem strContains_self (s : String) : strContains s s :=
  ⟨[], [], by simp⟩

theorem strContains_appendl (s t pat : String) (h : strContains s pat) :
    strContains (s ++ t) pat := by
  unfold strContains at h ⊢
  rw [String.data_append]
  exact h.trans ⟨[], t.data, by simp⟩

theorem strContains_appendr (s t pat : String) (h : strContains t pat) :
    strContains (s ++ t) pat := by
  unfold strContains at h ⊢
  rw [String.data_append]
  exact h.trans ⟨s.data, [], by simp⟩

theorem newsLines_contains_title (l : List Article) (a : Article) (ha : a ∈ l) :
    strContains (newsLines l) a.title := by
  induction l with
  | nil => cases ha
  | cons b rest ih =>
      rcases List.mem_cons.mp ha with rfl | ha'
      · simp only [newsLines]
        exact strContains_appendl _ _ _ (strContains_appendl _ _ _
          (strContains_appendr _ _ _ (strContains_self _)))
      · simp only [newsLines]
        exact strContains_appendr _ _ _ (ih ha')

theorem news_section_contains_title (articles : List Article) (a : Article)
    (ha : a ∈ articles.take 3) :
    strContains (news_section articles) a.title := by
  have hne : articles.isEmpty = false := by
    cases articles with
    | nil => cases ha
    | cons x xs => rfl
  simp only [news_section, hne, Bool.false_eq_true, if_false]
  exact strContains_appendr _ _ _ (newsLines_contains_title _ _ ha)

/-! ## Concrete data used by the witness theorems -/

def wState : LoopState := initState none

def wInput : TickInput :=
  { priceResult := some 795, now := 1000, logTimestamp := "t1", emailTimestamp := "t2",
    newsResponse := NewsResponse.raises, claudeOutcome := ClaudeOutcome.raises,
    smtpOutcome := SmtpOutcome.sent }

def wOut : LoopState × TickEvents :=
  ({ prev_price := some 795, last_alert_time := some 1000,
     logFile := some [LogLine.header, LogLine.row "t1" TICKER 795 "YES"] },
   notifyEvents true)

def wInput2 : TickInput :=
  { priceResult := some 790, now := 2000, logTimestamp := "t3", emailTimestamp := "t4",
    newsResponse := NewsResponse.raises, claudeOutcome := ClaudeOutcome.raises,
    smtpOutcome := SmtpOutcome.sent }

def wS2 : LoopState :=
  { prev_price := some 790, last_alert_time := some 1000,
    logFile := some [LogLine.header, LogLine.row "t1" TICKER 795 "YES",
                     LogLine.row "t3" TICKER 790 "YES"] }

/-! ## The claims -/

/-- **C1** (amended).  For every tick in which a price was successfully
fetched *and which completes without raising* (the iteration raises —
and notifies nothing — exactly when `prev_price` is `0` from a
previously observed 0.00 price, where `format_change` divides by
`prev_price` before the guard), the loop initiates a notification (news
fetch, analysis, e-mail send) if and only if `price < threshold` and
(`last_alert_time` is unset or `now - last_alert_time` is strictly
greater than the cooldown); otherwise it takes no notifying action on
that tick. -/
theorem C1_notify_iff_guard (s : LoopState) (inp : TickInput) (price : ℚ)
    (hp : inp.priceResult = some price) (out : LoopState × TickEvents)
    (h : tick s inp = Except.ok out) :
    ((out.2.newsFetched = true ∧ out.2.analysisRequested = true ∧
        out.2.sendAttempted = true) ↔
      (price < ALERT_BELOW ∧ (s.last_alert_time = none ∨
        ∃ t, s.last_alert_time = some t ∧
          inp.now - t > (ALERT_COOLDOWN_SECONDS : ℚ))))
    ∧ ((out.2.newsFetched = true ∨ out.2.analysisRequested = true ∨
        out.2.sendAttempted = true) ↔
      (price < ALERT_BELOW ∧ (s.last_alert_time = none ∨
        ∃ t, s.last_alert_time = some t ∧
          inp.now - t > (ALERT_COOLDOWN_SECONDS : ℚ)))) := by
  by_cases hprev : s.prev_price = some 0
  · rw [tick_format_crash s inp price hp hprev] at h
    simp at h
  · by_cases hlt : price < ALERT_BELOW
    · cases hc : cooldownOver s.last_alert_time inp.now with
      | true =>
          rw [tick_notify s inp price hp hprev hlt hc] at h
          simp only [Except.ok.injEq] at h
          subst h
          have hg := (cooldownOver_eq_true_iff s.last_alert_time inp.now).mp hc
          simp [notifyEvents, hlt, hg]
      | false =>
          rw [tick_cooldown_active s inp price hp hprev hlt hc] at h
          simp only [Except.ok.injEq] at h
          subst h
          have hg : ¬ (s.last_alert_time = none ∨
              ∃ t, s.last_alert_time = some t ∧
                inp.now - t > (ALERT_COOLDOWN_SECONDS : ℚ)) := by
            intro hcontra
            rw [(cooldownOver_eq_true_iff _ _).mpr hcontra] at hc
            cases hc
          simp [idleEvents, hg]
    · rw [tick_above s inp price hp hprev hlt] at h
      simp only [Except.ok.injEq] at h
      subst h
      simp [idleEvents, hlt]

theorem C1_notify_iff_guard_witness :
    ((wOut.2.newsFetched = true ∧ wOut.2.analysisRequested = true ∧
        wOut.2.sendAttempted = true) ↔
      ((795 : ℚ) < ALERT_BELOW ∧ (wState.last_alert_time = none ∨
        ∃ t, wState.last_alert_time = some t ∧
          wInput.now - t > (ALERT_COOLDOWN_SECONDS : ℚ))))
    ∧ ((wOut.2.newsFetched = true ∨ wOut.2.analysisRequested = true ∨
        wOut.2.sendAttempted = true) ↔
      ((795 : ℚ) < ALERT_BELOW ∧ (wState.last_alert_time = none ∨
        ∃ t, wState.last_alert_time = some t ∧
          wInput.now - t > (ALERT_COOLDOWN_SECONDS : ℚ)))) :=
  C1_notify_iff_guard wState wInput 795 rfl wOut rfl

/-- A tick observing the price 0.00 (below threshold; the send fails, so
`last_alert_time` stays unset). -/
def cxIn0 : TickInput :=
  { priceResult := some 0, now := 1000, logTimestamp := "t1", emailTimestamp := "t2",
    newsResponse := NewsResponse.raises, claudeOutcome := ClaudeOutcome.raises,
    smtpOutcome := SmtpOutcome.authError }

/-- A follow-up tick observing the price 5.00 with the notify guard true. -/
def cxIn1 : TickInput :=
  { priceResult := some 5, now := 2000, logTimestamp := "t3", emailTimestamp := "t4",
    newsResponse := NewsResponse.raises, claudeOutcome := ClaudeOutcome.raises,
    smtpOutcome := SmtpOutcome.authError }

/-- The loop state after `cxIn0` from a fresh start: `prev_price = 0`,
cooldown unset, one data row in the log. -/
def cxCrashState : LoopState :=
  { prev_price := some 0, last_alert_time := none,
    logFile := some [LogLine.header, LogLine.row "t1" TICKER 0 "YES"] }

/-- **C1** counterexample: a tick that successfully fetched the price
5.00 with the guard true (price below threshold, `last_alert_time`
unset) initiates no notification — the iteration raises
`ZeroDivisionError` in `format_change` (line 213, called at line 240
before the guard) because the previous tick observed a 0.00 price. -/
theorem C1_cx_format_crash :
    ((5 : ℚ) < ALERT_BELOW ∧ cxCrashState.last_alert_time = none) ∧
    tick cxCrashState cxIn1 = Except.error (PyErr.zeroDivision, cxCrashState) :=
  ⟨⟨by norm_num [ALERT_BELOW], rfl⟩, by rfl⟩

/-- **C2.** On every tick that attempts a notification send,
`last_alert_time` is updated to the tick's current time exactly when the
send reports success, and is left unchanged when the send reports
failure; no other operation mutates `last_alert_time`. -/
theorem C2_last_alert_update (s : LoopState) (inp : TickInput)
    (out : LoopState × TickEvents) (h : tick s inp = Except.ok out) :
    (out.2.sendResult = some true → out.1.last_alert_time = some inp.now)
    ∧ (out.2.sendResult = some false → out.1.last_alert_time = s.last_alert_time)
    ∧ (out.2.sendResult = none → out.1.last_alert_time = s.last_alert_time) := by
  cases hp : inp.priceResult with
  | none =>
      rw [tick_fetch_fail s inp hp] at h
      simp only [Except.ok.injEq] at h
      subst h
      simp [noEvents]
  | some price =>
      by_cases hprev : s.prev_price = some 0
      · rw [tick_format_crash s inp price hp hprev] at h
        simp at h
      · by_cases hlt : price < ALERT_BELOW
        · cases hc : cooldownOver s.last_alert_time inp.now with
          | false =>
              rw [tick_cooldown_active s inp price hp hprev hlt hc] at h
              simp only [Except.ok.injEq] at h
              subst h
              simp [idleEvents]
          | true =>
              rw [tick_notify s inp price hp hprev hlt hc] at h
              simp only [Except.ok.injEq] at h
              subst h
              cases hsm : smtpSuccess inp.smtpOutcome <;> simp [notifyEvents, hsm]
        · rw [tick_above s inp price hp hprev hlt] at h
          simp only [Except.ok.injEq] at h
          subst h
          simp [idleEvents]

theorem C2_last_alert_update_witness :
    (wOut.2.sendResult = some true → wOut.1.last_alert_time = some wInput.now)
    ∧ (wOut.2.sendResult = some false → wOut.1.last_alert_time = wState.last_alert_time)
    ∧ (wOut.2.sendResult = none → wOut.1.last_alert_time = wState.last_alert_time) :=
  C2_last_alert_update wState wInput wOut rfl

/-- **C3.** For every tick whose observed price `p` satisfies
`p ≥ threshold`, no notification is sent on that tick: the
news/analysis/send path is never entered. -/
theorem C3_no_send_at_or_above (s : LoopState) (inp : TickInput) (price : ℚ)
    (hp : inp.priceResult = some price) (hge : ALERT_BELOW ≤ price)
    (out : LoopState × TickEvents) (h : tick s inp = Except.ok out) :
    out.2.newsFetched = false ∧ out.2.analysisRequested = false ∧
    out.2.sendAttempted = false ∧ out.2.sendResult = none := by
  have hlt : ¬ price < ALERT_BELOW := not_lt.mpr hge
  by_cases hprev : s.prev_price = some 0
  · rw [tick_format_crash s inp price hp hprev] at h
    simp at h
  · rw [tick_above s inp price hp hprev hlt] at h
    simp only [Except.ok.injEq] at h
    subst h
    simp [idleEvents]

def wInputHigh : TickInput :=
  { priceResult := some 805, now := 1000, logTimestamp := "t1", emailTimestamp := "t2",
    newsResponse := NewsResponse.raises, claudeOutcome := ClaudeOutcome.raises,
    smtpOutcome := SmtpOutcome.sent }

def wOutHigh : LoopState × TickEvents :=
  ({ prev_price := some 805, last_alert_time := none,
     logFile := some [LogLine.header, LogLine.row "t1" TICKER 805 ""] },
   idleEvents)

theorem C3_no_send_at_or_above_witness :
    ALERT_BELOW ≤ (805 : ℚ) ∧
    (wOutHigh.2.newsFetched = false ∧ wOutHigh.2.analysisRequested = false ∧
     wOutHigh.2.sendAttempted = false ∧ wOutHigh.2.sendResult = none) :=
  ⟨by norm_num [ALERT_BELOW],
   C3_no_send_at_or_above wState wInputHigh 805 rfl (by norm_num [ALERT_BELOW])
     wOutHigh rfl⟩

/-- **C4.** For two consecutive below-threshold observations whose tick
times are separated by less than the cooldown duration, at most one
notification is sent across the two ticks (assuming a successful send on
the first): the second tick attempts no send. -/
theorem C4_cooldown_suppresses (s : LoopState) (i1 i2 : TickInput) (p1 p2 : ℚ)
    (s1 : LoopState) (e1 : TickEvents) (s2 : LoopState) (e2 : TickEvents)
    (h1 : tick s i1 = Except.ok (s1, e1)) (h2 : tick s1 i2 = Except.ok (s2, e2))
    (hp1 : i1.priceResult = some p1) (hp2 : i2.priceResult = some p2)
    (hb1 : p1 < ALERT_BELOW) (hb2 : p2 < ALERT_BELOW)
    (hsucc : e1.sendResult = some true)
    (hsep : i2.now - i1.now < (ALERT_COOLDOWN_SECONDS : ℚ)) :
    e2.sendAttempted = false := by
  by_cases hprev1 : s.prev_price = some 0
  · rw [tick_format_crash s i1 p1 hp1 hprev1] at h1
    simp at h1
  · cases hc1 : cooldownOver s.last_alert_time i1.now with
    | false =>
        rw [tick_cooldown_active s i1 p1 hp1 hprev1 hb1 hc1] at h1
        simp only [Except.ok.injEq, Prod.mk.injEq] at h1
        obtain ⟨-, he1⟩ := h1
        rw [← he1] at hsucc
        simp [idleEvents] at hsucc
    | true =>
        rw [tick_notify s i1 p1 hp1 hprev1 hb1 hc1] at h1
        simp only [Except.ok.injEq, Prod.mk.injEq] at h1
        obtain ⟨hs1, he1⟩ := h1
        have hsm : smtpSuccess i1.smtpOutcome = true := by
          rw [← he1] at hsucc
          simpa [notifyEvents] using hsucc
        have hlast : s1.last_alert_time = some i1.now := by
          rw [← hs1]
          simp [hsm]
        have hnot : ¬ (i2.now - i1.now > (ALERT_COOLDOWN_SECONDS : ℚ)) := by linarith
        have hc2 : cooldownOver s1.last_alert_time i2.now = false := by
          rw [hlast]
          simpa [cooldownOver] using hnot
        by_cases hprev2 : s1.prev_price = some 0
        · rw [tick_format_crash s1 i2 p2 hp2 hprev2] at h2
          simp at h2
        · rw [tick_cooldown_active s1 i2 p2 hp2 hprev2 hb2 hc2] at h2
          simp only [Except.ok.injEq, Prod.mk.injEq] at h2
          obtain ⟨-, he2⟩ := h2
          rw [← he2]
          rfl

theorem wTick2_eq : tick wOut.1 wInput2 = Except.ok (wS2, idleEvents) := by
  have hc : cooldownOver wOut.1.last_alert_time wInput2.now = false := by
    show cooldownOver (some 1000) 2000 = false
    simp only [cooldownOver, decide_eq_false_iff_not, not_lt, ALERT_COOLDOWN_SECONDS]
    norm_num
  rw [tick_cooldown_active wOut.1 wInput2 790 rfl (by decide)
    (by norm_num [ALERT_BELOW, wInput2]) hc]
  rfl

theorem C4_cooldown_suppresses_witness : idleEvents.sendAttempted = false :=
  C4_cooldown_suppresses wState wInput wInput2 795 790 wOut.1 wOut.2 wS2 idleEvents
    (by rfl) wTick2_eq rfl rfl (by norm_num [ALERT_BELOW]) (by norm_num [ALERT_BELOW]) rfl
    (by norm_num [ALERT_COOLDOWN_SECONDS, wInput, wInput2])

/-- **C9.** On any tick where the price fetch fails, the tick performs no
log write, no news fetch, no analysis and no notification, and leaves
`prev_price`, `last_alert_time` and the log file contents unchanged. -/
theorem C9_fetch_fail_frame (s : LoopState) (inp : TickInput)
    (hp : inp.priceResult = none) (out : LoopState × TickEvents)
    (h : tick s inp = Except.ok out) :
    out.1.prev_price = s.prev_price ∧ out.1.last_alert_time = s.last_alert_time ∧
    out.1.logFile = s.logFile ∧ out.2.logged = false ∧ out.2.newsFetched = false ∧
    out.2.analysisRequested = false ∧ out.2.sendAttempted = false ∧
    out.2.sendResult = none := by
  rw [tick_fetch_fail s inp hp] at h
  simp only [Except.ok.injEq] at h
  subst h
  simp [noEvents]

def wInputFail : TickInput :=
  { priceResult := none, now := 1000, logTimestamp := "t1", emailTimestamp := "t2",
    newsResponse := NewsResponse.raises, claudeOutcome := ClaudeOutcome.raises,
    smtpOutcome := SmtpOutcome.sent }

theorem C9_fetch_fail_frame_witness :
    (wState, noEvents).1.prev_price = wState.prev_price ∧
    (wState, noEvents).1.last_alert_time = wState.last_alert_time ∧
    (wState, noEvents).1.logFile = wState.logFile ∧
    (wState, noEvents).2.logged = false ∧
    (wState, noEvents).2.newsFetched = false ∧
    (wState, noEvents).2.analysisRequested = false ∧
    (wState, noEvents).2.sendAttempted = false ∧
    (wState, noEvents).2.sendResult = none :=
  C9_fetch_fail_frame wState wInputFail rfl (wState, noEvents) rfl

/-- **C10.** Throughout any execution of the loop, `last_alert_time` is
monotonically non-decreasing: it starts unset, and once set it is never
cleared back to unset and never assigned an earlier timestamp. -/
theorem C10_last_alert_monotone :
    (∀ file, (initState file).last_alert_time = none) ∧
    (∀ (s : LoopState) (inputs : List TickInput) (out : LoopState × List TickEvents),
      runTicks s inputs = Except.ok out →
      ∀ t, s.last_alert_time = some t →
        ∃ t', out.1.last_alert_time = some t' ∧ t ≤ t') :=
  ⟨fun _ => rfl,
   fun s inputs out h t hl => runTicks_last_alert_mono inputs s out h t hl⟩

def wS5 : LoopState :=
  { prev_price := none, last_alert_time := some 5, logFile := none }

theorem C10_last_alert_monotone_witness :
    ∃ t', wS5.last_alert_time = some t' ∧ (5 : ℚ) ≤ t' :=
  C10_last_alert_monotone.2 wS5 [wInputFail] (wS5, [noEvents]) (by rfl) 5 rfl

theorem length_filterMap_rowOf (inputs : List TickInput)
    (hv : ∀ i ∈ inputs, (i.priceResult).isSome = true) :
    (inputs.filterMap rowOf?).length = inputs.length := by
  induction inputs with
  | nil => rfl
  | cons i rest ih =>
      obtain ⟨p, hp⟩ := Option.isSome_iff_exists.mp (hv i (List.mem_cons_self i rest))
      simp [List.filterMap_cons, rowOf?, hp,
        ih (fun j hj => hv j (List.mem_cons_of_mem i hj))]

/-- **C5** (amended).  Starting from no existing log file, after `N`
ticks that each fetched a valid price *and that ran to completion* (a
run aborts, mid-way, when a tick follows an observed 0.00 price: there
`format_change` raises before the log write), the log contains exactly
one header row plus `N` data rows in observation order, each row of the
form `timestamp,ticker,price,below_flag`, and each row's flag is `"YES"`
exactly for the observations with `price < threshold` (and `""`
otherwise). -/
theorem C5_log_shape (inputs : List TickInput) (hne : inputs ≠ [])
    (hv : ∀ i ∈ inputs, (i.priceResult).isSome = true)
    (out : LoopState × List TickEvents)
    (h : runTicks (initState none) inputs = Except.ok out) :
    out.1.logFile = some (LogLine.header ::
      inputs.filterMap (fun i => i.priceResult.map fun p =>
        LogLine.row i.logTimestamp TICKER p (if p < ALERT_BELOW then "YES" else "")))
    ∧ (inputs.filterMap (fun i => i.priceResult.map fun p =>
        LogLine.row i.logTimestamp TICKER p
          (if p < ALERT_BELOW then "YES" else ""))).length = inputs.length := by
  have hrow : (fun i : TickInput => i.priceResult.map fun p =>
      LogLine.row i.logTimestamp TICKER p
        (if p < ALERT_BELOW then "YES" else "")) = rowOf? := rfl
  rw [hrow]
  refine ⟨?_, length_filterMap_rowOf inputs hv⟩
  cases inputs with
  | nil => exact absurd rfl hne
  | cons i rest =>
      obtain ⟨s', ev, evs, htick, hrest, -⟩ := runTicks_cons_ok _ i rest out h
      have hlog := tick_logFile_eq _ i (s', ev) htick
      obtain ⟨p, hp⟩ := Option.isSome_iff_exists.mp (hv i (List.mem_cons_self i rest))
      simp only [hp, initState, log_price_none] at hlog
      have := runTicks_logFile_append rest s' _ (out.1, evs) hlog hrest
      simpa [List.filterMap_cons, rowOf?, hp] using this

def wInputHigh2 : TickInput :=
  { priceResult := some 810, now := 2000, logTimestamp := "t3", emailTimestamp := "t4",
    newsResponse := NewsResponse.raises, claudeOutcome := ClaudeOutcome.raises,
    smtpOutcome := SmtpOutcome.sent }

def wSHigh2 : LoopState :=
  { prev_price := some 810, last_alert_time := none,
    logFile := some [LogLine.header, LogLine.row "t1" TICKER 805 "",
                     LogLine.row "t3" TICKER 810 ""] }

theorem C5_log_shape_witness :
    ([wInputHigh, wInputHigh2] ≠ ([] : List TickInput)) ∧
    (∀ i ∈ [wInputHigh, wInputHigh2], (i.priceResult).isSome = true) ∧
    ((wSHigh2, [idleEvents, idleEvents]).1.logFile = some (LogLine.header ::
        [wInputHigh, wInputHigh2].filterMap (fun i => i.priceResult.map fun p =>
          LogLine.row i.logTimestamp TICKER p
            (if p < ALERT_BELOW then "YES" else "")))
      ∧ ([wInputHigh, wInputHigh2].filterMap (fun i => i.priceResult.map fun p =>
          LogLine.row i.logTimestamp TICKER p
            (if p < ALERT_BELOW then "YES" else ""))).length =
          [wInputHigh, wInputHigh2].length) :=
  ⟨by simp,
   by intro i hi; rcases List.mem_pair.mp hi with rfl | rfl <;> rfl,
   C5_log_shape [wInputHigh, wInputHigh2] (by simp)
     (by intro i hi; rcases List.mem_pair.mp hi with rfl | rfl <;> rfl)
     (wSHigh2, [idleEvents, idleEvents]) (by rfl)⟩

/-- **C5** counterexample: two ticks that each fetched a valid price
(0.00 then 5.00), yet the run crashes in `format_change` before the
second log write — the log at the moment of the raise holds one data
row, not two, so it is not "one header row plus `N` data rows". -/
theorem C5_cx_crash_truncates_log :
    (∀ i ∈ [cxIn0, cxIn1], (i.priceResult).isSome = true) ∧
    runTicks (initState none) [cxIn0, cxIn1] =
      Except.error (PyErr.zeroDivision, cxCrashState) :=
  ⟨by intro i hi; rcases List.mem_pair.mp hi with rfl | rfl <;> rfl, by rfl⟩

/-! ## News and e-mail claims -/

/-- A sample raw NewsAPI article (all JSON fields present, including a
`url`, which NewsAPI responses carry). -/
def rawA : RawArticle :=
  { title? := some "Meta shares slide", description? := some "Meta fell after earnings.",
    sourceName? := some "Newswire", publishedAt? := some "2025-01-01T00:00:00Z",
    url? := some "https://example.com/meta-article" }

/-- **C6** (amended).  For every query, the news fetch returns an ordered
sequence of records each containing the fields `title`, `description`,
`source` and `publishedAt` — but *not* `url`, which `get_news` drops —
and on any error (exception or non-"ok" API status) it returns the empty
sequence and never raises to its caller. -/
theorem C6_get_news_shape (query : String) (resp : NewsResponse) :
    (resp = NewsResponse.raises → get_news query resp = []) ∧
    (∀ st msg arts, st ≠ "ok" → get_news query (NewsResponse.response st msg arts) = []) ∧
    (∀ a ∈ get_news query resp,
      ((Article.toDict a).lookup "title").isSome = true ∧
      ((Article.toDict a).lookup "description").isSome = true ∧
      ((Article.toDict a).lookup "source").isSome = true ∧
      ((Article.toDict a).lookup "publishedAt").isSome = true ∧
      (Article.toDict a).lookup "url" = none) := by
  refine ⟨?_, ?_, ?_⟩
  · rintro rfl; rfl
  · intro st msg arts hst
    simp [get_news, hst]
  · intro a _
    exact ⟨rfl, rfl, rfl, rfl, rfl⟩

theorem C6_get_news_shape_witness :
    (get_news "META Facebook stock" NewsResponse.raises = []) ∧
    ((Article.toDict (mkArticle rawA)).lookup "url" = none) :=
  ⟨(C6_get_news_shape "META Facebook stock" NewsResponse.raises).1 rfl,
   ((C6_get_news_shape "META Facebook stock"
       (NewsResponse.response "ok" none [rawA])).2.2 (mkArticle rawA)
       (by simp [get_news])).2.2.2.2⟩

/-- **C6** counterexample: even when the raw article carries a `url`, the
record `get_news` returns has no `url` field. -/
theorem C6_cx_no_url_field :
    ¬ ∀ a ∈ get_news "META Facebook stock"
        (NewsResponse.response "ok" none [rawA]),
      ((Article.toDict a).lookup "url").isSome = true := by
  decide

/-- **C7** (amended).  For every input with a nonzero target, the
notification send returns a success/failure boolean and never raises
past itself.  (With `target = 0` the body formatting divides by `target`
before the `try` block and raises `ZeroDivisionError`; the loop always
passes `target = ALERT_BELOW = 800`, so this cannot happen in the loop.) -/
theorem C7_send_no_raise (price target : ℚ) (analysis : String)
    (articles : List Article) (ts : String) (smtp : SmtpOutcome)
    (h : target ≠ 0) :
    ∃ b : Bool, send_smart_email price target analysis articles ts smtp = Except.ok b :=
  ⟨smtpSuccess smtp, send_smart_email_eq price target analysis articles ts smtp h⟩

theorem C7_send_no_raise_witness : (800 : ℚ) ≠ 0 ∧ ∃ b : Bool,
    send_smart_email 795 800 "A" [] "T" SmtpOutcome.authError = Except.ok b :=
  ⟨by norm_num, C7_send_no_raise 795 800 "A" [] "T" SmtpOutcome.authError (by norm_num)⟩

/-- **C7** counterexample: at `target = 0` the send operation raises
(`ZeroDivisionError` from the percentage in the body, built before the
`try`), rather than returning a success/failure result. -/
theorem C7_cx_target_zero_raises :
    send_smart_email 795 0 "A" [] "T" SmtpOutcome.sent =
      Except.error PyErr.zeroDivision := rfl

/-- **C8** (amended).  The notification body contains the current price,
the threshold, a timestamp, the AI analysis text and, when articles were
fetched, the news headlines (titles of up to the first three articles) —
but no links, since the articles carry no URL. -/
theorem C8_payload_contents (price target pct : ℚ) (ts analysis : String)
    (articles : List Article) :
    strContains (emailBody price target pct ts analysis articles) (fmt2 price) ∧
    strContains (emailBody price target pct ts analysis articles) (fmt2 target) ∧
    strContains (emailBody price target pct ts analysis articles) ts ∧
    strContains (emailBody price target pct ts analysis articles) analysis ∧
    ∀ a ∈ articles.take 3,
      strContains (emailBody price target pct ts analysis articles) a.title := by
  refine ⟨?_, ?_, ?_, ?_, ?_⟩
  · simp only [emailBody]
    repeat first
      | exact strContains_appendr _ _ _ (strContains_self _)
      | apply strContains_appendl
  · simp only [emailBody]
    repeat first
      | exact strContains_appendr _ _ _ (strContains_self _)
      | apply strContains_appendl
  · simp only [emailBody]
    repeat first
      | exact strContains_appendr _ _ _ (strContains_self _)
      | apply strContains_appendl
  · simp only [emailBody]
    repeat first
      | exact strContains_appendr _ _ _ (strContains_self _)
      | apply strContains_appendl
  · intro a ha
    simp only [emailBody]
    exact strContains_appendl _ _ _ (strContains_appendl _ _ _ (strContains_appendl _ _ _
      (strContains_appendr _ _ _ (news_section_contains_title articles a ha))))

theorem C8_payload_contents_witness :
    strContains (emailBody 795 800 1 "T" "A" [mkArticle rawA]) (fmt2 795) ∧
    strContains (emailBody 795 800 1 "T" "A" [mkArticle rawA]) (mkArticle rawA).title :=
  ⟨(C8_payload_contents 795 800 1 "T" "A" [mkArticle rawA]).1,
   (C8_payload_contents 795 800 1 "T" "A" [mkArticle rawA]).2.2.2.2
     (mkArticle rawA) (by simp)⟩

/-- The articles the loop would pass to the send step for a NewsAPI
response consisting of the single raw article `rawA`. -/
def cxArticles : List Article :=
  get_news "META Facebook stock" (NewsResponse.response "ok" none [rawA])

set_option maxRecDepth 4096 in
/-- **C8** counterexample: for an article fetched with a URL, the body
built from it does not contain that URL — the e-mail has headlines but
no links to the articles. -/
theorem C8_cx_no_links :
    ¬ strContains (emailBody 795 800 1 "2025-01-01 00:00:00" "Analysis text" cxArticles)
      "https://example.com/meta-article" := by
  intro h
  have hmem : '/' ∈ "https://example.com/meta-article".data := by decide
  have h2 := h.subset hmem
  simp only [emailBody] at h2
  rw [show ((800:ℚ) - 795) = 5 from by norm_num] at h2
  revert h2
  decide
